import Mathlib

/-!
Shallow embedding of the frame-sampling / dispatch / aggregation pipeline of
the SeniorProjTesting repository, together with proofs settling the frozen
claims about its natural-language specification.

Embedded source functions:
  - image_container/image_client.py : send_json, send_image, extract_frames,
    splice_and_send_video (its per-frame loop is send_frames below)
  - standalone_server.py : extract_frames (same body), process_video_frames,
    and the average computation of handle_video_analysis (line 232)
  - api_server.py : the summary-statistics portion of save_results_to_firestore

Machine-level conventions: Python dict/list/str/int/float values are modelled
by the PyVal inductive; Python exceptions are modelled by Except / Option
return types placed exactly where the source raises or catches; the network,
the filesystem and the ffmpeg subprocess are modelled as explicit environment
records, so every embedded function is a pure, executable Lean definition.
-/

namespace VideoPipeline

/-- Model of a Python/JSON value as passed around by the pipeline. -/
inductive PyVal where
  | int (n : Int)
  | bool (b : Bool)
  | str (s : String)
  | float (q : Rat)
  | list (xs : List PyVal)
  | dict (kvs : List (String × PyVal))

/-- Dictionary lookup, modelling Python d[k] / d.get(k) on a dict value
(first occurrence wins; Python dicts have unique keys). Non-dict receivers
have no such item, modelled as none. -/
def PyVal.get : PyVal → String → Option PyVal
  | .dict kvs, k => kvs.lookup k
  | _, _ => none

/-- Python truthiness of a value. -/
def PyVal.truthy : PyVal → Bool
  | .int n => n != 0
  | .bool b => b
  | .str s => s.data != []
  | .float q => q != 0
  | .list xs => !xs.isEmpty
  | .dict kvs => !kvs.isEmpty

/-- Model of Python d.get(k, default): none models the AttributeError raised
when the receiver is not a dict. -/
def pyDictGet (v : PyVal) (k : String) (default : PyVal) : Option PyVal :=
  match v with
  | .dict kvs => some ((kvs.lookup k).getD default)
  | _ => none

/-- Codepoint order on char lists, the order Python uses to compare strings
(and hence the order of sorted() over the frame file names). -/
def strLeList : List Char → List Char → Bool
  | [], _ => true
  | _ :: _, [] => false
  | a :: as, b :: bs =>
      if a.toNat < b.toNat then true
      else if b.toNat < a.toNat then false
      else strLeList as bs

/-- String comparison used by the sorted() calls of the source. -/
def strLe (a b : String) : Bool := strLeList a.data b.data

/-- Propositional form of strLe, for use with List.insertionSort. -/
def pyStrLe (a b : String) : Prop := strLe a b = true

instance : DecidableRel pyStrLe :=
  fun a b => inferInstanceAs (Decidable (strLe a b = true))

theorem strLeList_total : ∀ a b : List Char, strLeList a b = true ∨ strLeList b a = true := by
  intro a
  induction a with
  | nil => intro b; left; rfl
  | cons x xs ih =>
    intro b
    cases b with
    | nil => right; rfl
    | cons y ys =>
      simp only [strLeList]
      rcases Nat.lt_trichotomy x.toNat y.toNat with h | h | h
      · left; simp [h]
      · have h1 : ¬ x.toNat < y.toNat := by omega
        have h2 : ¬ y.toNat < x.toNat := by omega
        simpa [h1, h2] using ih ys
      · right; simp [h]

theorem strLeList_trans :
    ∀ a b c : List Char, strLeList a b = true → strLeList b c = true →
    strLeList a c = true := by
  intro a
  induction a with
  | nil => intro b c _ _; rfl
  | cons x xs ih =>
    intro b c hab hbc
    cases b with
    | nil => simp [strLeList] at hab
    | cons y ys =>
      cases c with
      | nil => simp [strLeList] at hbc
      | cons z zs =>
        simp only [strLeList] at hab hbc ⊢
        rcases Nat.lt_trichotomy x.toNat y.toNat with hxy | hxy | hxy <;>
          rcases Nat.lt_trichotomy y.toNat z.toNat with hyz | hyz | hyz
        · simp [show x.toNat < z.toNat from by omega]
        · simp [show x.toNat < z.toNat from by omega]
        · simp [show ¬ y.toNat < z.toNat from by omega, hyz] at hbc
        · simp [show x.toNat < z.toNat from by omega]
        · have h1 : ¬ x.toNat < y.toNat := by omega
          have h2 : ¬ y.toNat < x.toNat := by omega
          have h3 : ¬ y.toNat < z.toNat := by omega
          have h4 : ¬ z.toNat < y.toNat := by omega
          have h5 : ¬ x.toNat < z.toNat := by omega
          have h6 : ¬ z.toNat < x.toNat := by omega
          simp [h1, h2] at hab
          simp [h3, h4] at hbc
          simp [h5, h6]
          exact ih ys zs hab hbc
        · simp [show ¬ y.toNat < z.toNat from by omega, hyz] at hbc
        · simp [show ¬ x.toNat < y.toNat from by omega, hxy] at hab
        · simp [show ¬ x.toNat < y.toNat from by omega, hxy] at hab
        · simp [show ¬ x.toNat < y.toNat from by omega, hxy] at hab

instance : IsTotal String pyStrLe :=
  ⟨fun a b => strLeList_total a.data b.data⟩

instance : IsTrans String pyStrLe :=
  ⟨fun _ _ _ hab hbc => strLeList_trans _ _ _ hab hbc⟩

/-- Last path component, modelling os.path.basename: the suffix after the
final slash, accumulated left to right. -/
def lastComponent : List Char → List Char → List Char
  | [], acc => acc.reverse
  | '/' :: rest, _ => lastComponent rest []
  | c :: rest, acc => lastComponent rest (c :: acc)

/-- Model of os.path.basename as used on frame and video paths. -/
def basename (p : String) : String := String.mk (lastComponent p.data [])

/-- Value of a digit string, used by the model of float(). -/
def digitsToNat (cs : List Char) : Nat :=
  cs.foldl (fun a c => a * 10 + (c.toNat - 48)) 0

/-- Leading and trailing spaces removed, as float() does before parsing. -/
def stripSpaces (cs : List Char) : List Char :=
  ((cs.dropWhile (fun c => c = ' ')).reverse.dropWhile (fun c => c = ' ')).reverse

/-- Split a char list at the dots, for the model of float(). -/
def splitDot : List Char → List (List Char)
  | [] => [[]]
  | '.' :: rest => [] :: splitDot rest
  | c :: rest =>
    match splitDot rest with
    | [] => [[c]]
    | g :: gs => (c :: g) :: gs

/-- Model of Python float() on decimal literals: optional sign, digits, one
optional dot (exponents, inf and nan are out of scope for this pipeline, whose
step values are plain decimals). Returns none where float() raises ValueError. -/
def pyFloatOfString (s : String) : Option Rat :=
  let cs := stripSpaces s.data
  let signed : Bool × List Char :=
    match cs with
    | '-' :: t => (true, t)
    | '+' :: t => (false, t)
    | t => (false, t)
  let mag : Option Rat :=
    match splitDot signed.2 with
    | [ip] =>
        if !ip.isEmpty && ip.all Char.isDigit then some (digitsToNat ip : Rat)
        else none
    | [ip, fp] =>
        if (!ip.isEmpty || !fp.isEmpty) && ip.all Char.isDigit && fp.all Char.isDigit then
          some ((digitsToNat ip : Rat) + (digitsToNat fp : Rat) / ((10 : Rat) ^ fp.length))
        else none
    | _ => none
  mag.map (fun q => if signed.1 then -q else q)

/-- Raw HTTP response body as seen by the client: either a string that parses
as the JSON value it denotes, or a string that json.loads rejects. -/
inductive RawResp where
  | jsonOf (v : PyVal)
  | nonJson (s : String)

/-- Result of one urllib network attempt: a body, a urllib.error.URLError, or
some other exception. -/
inductive NetResult where
  | success (body : RawResp)
  | urlError (msg : String)
  | exc (msg : String)

/-- Embeds send_json (image_client.py lines 19-38): posts the payload and
returns the response body; a URLError or any other exception is caught and
turned into a JSON error string - send_json never raises. -/
def send_json (net : NetResult) : RawResp :=
  match net with
  | .success body => body
  | .urlError m => .jsonOf (.dict [("error", .str ("Network error: " ++ m))])
  | .exc m => .jsonOf (.dict [("error", .str ("Unexpected error: " ++ m))])

/-- Environment of one dispatch run: whether each frame file exists, whether
reading/encoding it raises, and the network behaviour, indexed by a global
attempt counter so that the number of requests actually issued is observable. -/
structure DispatchEnv where
  fileExists : String → Bool
  readErr : String → Option String
  net : Nat → NetResult

/-- Embeds send_image (image_client.py lines 41-62): checks the file, reads
and base64-encodes it, and posts via send_json; every failure is caught and
returned as a JSON error string. Returns the response together with the
updated attempt counter (a network request happens only on the send_json
path). -/
def send_image (env : DispatchEnv) (image_path : String) (attempt : Nat) :
    RawResp × Nat :=
  if env.fileExists image_path = false then
    (.jsonOf (.dict [("error", .str ("Image file not found: " ++ image_path))]), attempt)
  else
    match env.readErr image_path with
    | some e => (.jsonOf (.dict [("error", .str e)]), attempt)
    | none => (send_json (env.net attempt), attempt + 1)

/-- Embeds the response-parsing step of splice_and_send_video (lines 140-143):
json.loads on success yields the parsed value; a parse failure is absorbed
into an error dict that keeps the raw response. -/
def parse_backend_response : RawResp → PyVal
  | .jsonOf v => v
  | .nonJson s =>
      .dict [("error", .str "Non-JSON response from backend"), ("raw", .str s)]

/-- Embeds the per-frame loop of splice_and_send_video (lines 133-148): each
frame is sent once via send_image, its response parsed, and one entry appended
per frame. Returns the response list and the final attempt counter. -/
def send_frames (env : DispatchEnv) : List String → Nat → List PyVal × Nat
  | [], attempts => ([], attempts)
  | frame_path :: rest, attempts =>
    let sent := send_image env frame_path attempts
    let parsed := parse_backend_response sent.1
    let entry := PyVal.dict [("frame", .str (basename frame_path)), ("response", parsed)]
    let tail := send_frames env rest sent.2
    (entry :: tail.1, tail.2)

/-- Python exceptions raised by extract_frames. -/
inductive PyErr where
  | fileNotFound (msg : String)
  | valueError (msg : String)
  | calledProcessError (returncode : Int)
  | runtimeError (msg : String)

/-- Message text of an exception, modelling str(e). -/
def pyErrMsg : PyErr → String
  | .fileNotFound m => m
  | .valueError m => m
  | .calledProcessError c => "Command ffmpeg returned non-zero exit status " ++ toString c
  | .runtimeError m => m

/-- Environment of one extraction: whether the video file exists, the ffmpeg
exit status, and the frame files found by glob afterwards (in arbitrary
filesystem order; the source sorts them). -/
structure ExtractEnv where
  videoExists : Bool
  ffmpegExit : Int
  globFrames : List String

/-- Embeds extract_frames (image_client.py lines 69-99; standalone_server.py
lines 40-72 has the identical body): missing file raises FileNotFoundError,
non-positive step raises ValueError, a non-zero ffmpeg exit raises
CalledProcessError (subprocess.run with check=True), the globbed frames are
sorted, and an empty result raises RuntimeError. -/
def extract_frames (env : ExtractEnv) (video_path : String) (step_seconds : Rat) :
    Except PyErr (List String) :=
  if env.videoExists = false then
    .error (.fileNotFound ("Video file not found: " ++ video_path))
  else if step_seconds ≤ 0 then
    .error (.valueError "Step must be greater than 0 seconds.")
  else if env.ffmpegExit ≠ 0 then
    .error (.calledProcessError env.ffmpegExit)
  else
    let frames := List.insertionSort pyStrLe env.globFrames
    if frames.isEmpty then
      .error (.runtimeError "No frames extracted. Possibly video too short or invalid step.")
    else
      .ok frames

/-- Python list slicing xs[:k] for an int k (negative k drops the last -k
elements). -/
def pySlice (xs : List α) (k : Int) : List α :=
  if 0 ≤ k then xs.take k.toNat else xs.take (xs.length - (-k).toNat)

/-- Embeds the truncation step of splice_and_send_video (lines 127-128):
if max_frames and len(frames) > max_frames, frames = frames[:max_frames].
A max_frames of None or 0 is falsy and leaves the list unchanged. -/
def truncFrames (max_frames : Option Int) (frames : List String) : List String :=
  match max_frames with
  | none => frames
  | some k =>
      if k ≠ 0 ∧ (frames.length : Int) > k then pySlice frames k else frames

/-- World of one whole pipeline invocation. -/
structure PipelineEnv where
  extract : ExtractEnv
  dispatch : DispatchEnv

/-- Embeds splice_and_send_video (image_client.py lines 102-155): parses the
step string (parse failure or a non-positive value yields the ok=False error
dict), extracts frames (any exception yields the ok=False error dict),
truncates by max_frames, sends every frame through the loop, and returns the
ok=True summary dict. -/
def splice_and_send_video (env : PipelineEnv) (video_path step : String)
    (max_frames : Option Int) : PyVal :=
  match pyFloatOfString step with
  | none =>
      .dict [("ok", .bool false),
             ("error", .str ("Invalid step value " ++ step ++ ". Must be a positive number."))]
  | some step_seconds =>
    if step_seconds ≤ 0 then
      .dict [("ok", .bool false),
             ("error", .str ("Invalid step value " ++ step ++ ". Must be a positive number."))]
    else
      match extract_frames env.extract video_path step_seconds with
      | .error e =>
          .dict [("ok", .bool false),
                 ("error", .str ("Frame extraction failed: " ++ pyErrMsg e))]
      | .ok frames0 =>
        let frames := truncFrames max_frames frames0
        let responses := (send_frames env.dispatch frames 0).1
        .dict [("ok", .bool true),
               ("video", .str (basename video_path)),
               ("frames_sent", .int (frames.length : Int)),
               ("responses", .list responses)]

/-- Result of one model prediction as seen by process_video_frames: predict
returns a count (a list length, hence a Nat) or raises. -/
inductive PredictResult where
  | ok (count : Nat)
  | exc (msg : String)

/-- One entry of frame_results in process_video_frames. -/
structure FrameResult where
  frame : String
  garbage_count : Nat
  error : Option String

/-- Aggregate returned by process_video_frames. -/
structure AnalysisResult where
  frame_results : List FrameResult
  total_garbage_count : Nat
  frames_processed : Nat

/-- Recursion underlying the loop of process_video_frames: per frame, a
successful predict appends a success entry and adds its count to the total; an
exception is caught and appends a failure entry with count 0 and the message. -/
def process_video_frames_go (predict : String → PredictResult) :
    List String → List FrameResult × Nat
  | [] => ([], 0)
  | frame_path :: rest =>
    let tail := process_video_frames_go predict rest
    match predict frame_path with
    | .ok c => (⟨basename frame_path, c, none⟩ :: tail.1, c + tail.2)
    | .exc e => (⟨basename frame_path, 0, some e⟩ :: tail.1, tail.2)

/-- Embeds process_video_frames (standalone_server.py lines 75-106). -/
def process_video_frames (predict : String → PredictResult) (frames : List String) :
    AnalysisResult :=
  let acc := process_video_frames_go predict frames
  ⟨acc.1, acc.2, frames.length⟩

/-- Embeds the average computation of handle_video_analysis
(standalone_server.py line 232): total / frames_processed if frames_processed
is positive, else 0. -/
def average_garbage_count (total_garbage_count frames_processed : Nat) : Rat :=
  if frames_processed > 0 then
    (total_garbage_count : Rat) / (frames_processed : Rat)
  else 0

/-- Summary statistics computed by save_results_to_firestore. -/
structure FirestoreSummary where
  totalGarbage : Int
  framesProcessed : Nat
  perFrame : List Int

/-- Loop of save_results_to_firestore (api_server.py lines 75-80): per
response entry, frame_data is entry.get with a dict default, the count is
frame_data.get with default 0, and it is added to the total and the per-frame
list; a non-integer count would make the addition raise TypeError, which the
enclosing except swallows (modelled as none, meaning the save fails). -/
def save_results_summary_go :
    List PyVal → Int → Nat → List Int → Option FirestoreSummary
  | [], tg, fp, per => some ⟨tg, fp, per⟩
  | fr :: rest, tg, fp, per =>
    match pyDictGet fr "response" (.dict []) with
    | none => none
    | some frame_data =>
      match pyDictGet frame_data "garbage_count" (.int 0) with
      | none => none
      | some (.int n) => save_results_summary_go rest (tg + n) (fp + 1) (per ++ [n])
      | some _ => none

/-- Embeds the summary-statistics portion of save_results_to_firestore
(api_server.py lines 68-89): the loop runs only when results.get with key ok
is truthy and the responses key is present; otherwise the totals stay zero.
The model restricts the responses value to the list the client actually
produces (iterating any other value would fail inside the loop). -/
def save_results_summary (results : PyVal) : Option FirestoreSummary :=
  match results with
  | .dict kvs =>
    let okTruthy :=
      match kvs.lookup "ok" with
      | some v => v.truthy
      | none => false
    if okTruthy && (kvs.lookup "responses").isSome then
      match kvs.lookup "responses" with
      | some (.list rs) => save_results_summary_go rs 0 0 []
      | _ => none
    else some ⟨0, 0, []⟩
  | _ => none

/-! Helper lemmas shared by the claim theorems. -/

theorem send_frames_length (env : DispatchEnv) :
    ∀ (fs : List String) (ctr : Nat), (send_frames env fs ctr).1.length = fs.length := by
  intro fs
  induction fs with
  | nil => intro ctr; rfl
  | cons f rest ih => intro ctr; simp [send_frames, ih]

theorem send_frames_frame_names (env : DispatchEnv) :
    ∀ (fs : List String) (ctr : Nat),
      (send_frames env fs ctr).1.map (fun e => e.get "frame")
        = fs.map (fun f => some (PyVal.str (basename f))) := by
  intro fs
  induction fs with
  | nil => intro ctr; rfl
  | cons f rest ih =>
    intro ctr
    simp only [send_frames, List.map_cons, ih]
    rfl

theorem send_frames_attempts (env : DispatchEnv) :
    ∀ (fs : List String) (ctr : Nat),
      (send_frames env fs ctr).2
        = ctr + (fs.filter (fun f => env.fileExists f && (env.readErr f).isNone)).length := by
  intro fs
  induction fs with
  | nil => intro ctr; simp [send_frames]
  | cons f rest ih =>
    intro ctr
    by_cases hex : env.fileExists f
    · cases hre : env.readErr f with
      | none =>
        simp [send_frames, send_image, hex, hre, ih, List.filter_cons]
        omega
      | some e =>
        simp [send_frames, send_image, hex, hre, ih, List.filter_cons]
    · simp [send_frames, send_image, hex, ih, List.filter_cons]

theorem splice_ok_form (env : PipelineEnv) (video_path step : String)
    (mf : Option Int) (q : Rat) (frames : List String)
    (hstep : pyFloatOfString step = some q) (hq : 0 < q)
    (hext : extract_frames env.extract video_path q = .ok frames) :
    splice_and_send_video env video_path step mf =
      .dict [("ok", .bool true),
             ("video", .str (basename video_path)),
             ("frames_sent", .int ((truncFrames mf frames).length : Int)),
             ("responses", .list (send_frames env.dispatch (truncFrames mf frames) 0).1)] := by
  simp only [splice_and_send_video, hstep]
  rw [if_neg (not_le.mpr hq)]
  simp only [hext]

theorem extract_frames_ok_elim (env : ExtractEnv) (video_path : String) (q : Rat)
    (frames : List String) (h : extract_frames env video_path q = .ok frames) :
    frames = List.insertionSort pyStrLe env.globFrames ∧ frames ≠ [] := by
  simp only [extract_frames] at h
  split_ifs at h with h1 h2 h3 h4
  simp only [Except.ok.injEq] at h
  refine ⟨h.symm, ?_⟩
  rw [h] at h4
  simpa [List.isEmpty_iff] using h4

theorem truncFrames_sublist (mf : Option Int) (frames : List String) :
    (truncFrames mf frames).Sublist frames := by
  cases mf with
  | none => exact List.Sublist.refl _
  | some k =>
    simp only [truncFrames, pySlice]
    split_ifs <;> first | exact List.take_sublist _ _ | exact List.Sublist.refl _

theorem process_video_frames_go_spec (predict : String → PredictResult) :
    ∀ fs : List String,
      (process_video_frames_go predict fs).1.length = fs.length ∧
      (process_video_frames_go predict fs).2
        = (((process_video_frames_go predict fs).1.filter (fun fr => fr.error.isNone)).map
            (fun fr => fr.garbage_count)).sum ∧
      ∀ fr ∈ (process_video_frames_go predict fs).1,
          fr.error.isSome = true → fr.garbage_count = 0 := by
  intro fs
  induction fs with
  | nil => exact ⟨rfl, rfl, by intro fr h; simp [process_video_frames_go] at h⟩
  | cons f rest ih =>
    obtain ⟨ih1, ih2, ih3⟩ := ih
    cases hp : predict f with
    | ok c =>
      refine ⟨?_, ?_, ?_⟩
      · simp [process_video_frames_go, hp, ih1]
      · simp [process_video_frames_go, hp, List.filter_cons, ih2]
      · intro fr hmem herr
        simp [process_video_frames_go, hp] at hmem
        rcases hmem with hfr | hfr
        · rw [hfr] at herr; simp at herr
        · exact ih3 fr hfr herr
    | exc e =>
      refine ⟨?_, ?_, ?_⟩
      · simp [process_video_frames_go, hp, ih1]
      · simp [process_video_frames_go, hp, List.filter_cons, ih2]
      · intro fr hmem herr
        simp [process_video_frames_go, hp] at hmem
        rcases hmem with hfr | hfr
        · rw [hfr]
        · exact ih3 fr hfr herr

theorem length_filter_error_partition (l : List FrameResult) :
    (l.filter (fun fr => fr.error.isNone)).length
      + (l.filter (fun fr => fr.error.isSome)).length = l.length := by
  induction l with
  | nil => rfl
  | cons fr rest ih =>
    cases h : fr.error <;> simp [List.filter_cons, h] <;> omega

/-! Claim C1. -/

/-- C1 counterexample: with an empty outcome sequence (frames_processed = 0)
the aggregation step of handle_video_analysis does not fail with a
NoFramesProcessed error: line 232 of standalone_server.py silently computes 0
as the average, contradicting the claim that the empty case fails and that 0
is never silently returned. -/
theorem claim_C1_counterexample :
    (process_video_frames (fun _ => .ok 1) []).frames_processed = 0 ∧
    average_garbage_count
      (process_video_frames (fun _ => .ok 1) []).total_garbage_count
      (process_video_frames (fun _ => .ok 1) []).frames_processed = 0 :=
  ⟨rfl, rfl⟩

/-- C1 amended: frames_processed is the count of frames attempted (successes
plus failures), and for a non-empty sequence the average equals
total_detections / frames_processed; for an empty sequence the code silently
returns 0 as the average instead of failing with an error. -/
theorem claim_C1_amended (predict : String → PredictResult) (frames : List String) :
    (process_video_frames predict frames).frames_processed
      = ((process_video_frames predict frames).frame_results.filter
            (fun fr => fr.error.isNone)).length
        + ((process_video_frames predict frames).frame_results.filter
            (fun fr => fr.error.isSome)).length ∧
    (frames ≠ [] →
      average_garbage_count (process_video_frames predict frames).total_garbage_count
          (process_video_frames predict frames).frames_processed
        = ((process_video_frames predict frames).total_garbage_count : Rat)
            / ((process_video_frames predict frames).frames_processed : Rat)) ∧
    (frames = [] →
      average_garbage_count (process_video_frames predict frames).total_garbage_count
          (process_video_frames predict frames).frames_processed = 0) := by
  obtain ⟨hlen, -, -⟩ := process_video_frames_go_spec predict frames
  refine ⟨?_, ?_, ?_⟩
  · rw [length_filter_error_partition]
    exact hlen.symm
  · intro hne
    have hpos : 0 < (process_video_frames predict frames).frames_processed := by
      simpa [process_video_frames] using List.length_pos.mpr hne
    simp only [average_garbage_count]
    rw [if_pos hpos]
  · intro he
    subst he
    rfl

/-- Prediction behaviour used by the witnesses: counts 2, 0, 3 for the three
frames a.jpg, b.jpg, c.jpg. -/
def predict237 : String → PredictResult := fun p =>
  if p = "a.jpg" then .ok 2 else if p = "b.jpg" then .ok 0 else .ok 3

/-- C1 witness: the amended claim applied at a concrete nonempty input, where
the counts 2, 0, 3 over three frames give average 5/3. -/
theorem claim_C1_witness :
    average_garbage_count
      (process_video_frames predict237 ["a.jpg", "b.jpg", "c.jpg"]).total_garbage_count
      (process_video_frames predict237 ["a.jpg", "b.jpg", "c.jpg"]).frames_processed
      = (5 : Rat) / 3 := by
  have h := (claim_C1_amended predict237 ["a.jpg", "b.jpg", "c.jpg"]).2.1 (by simp)
  rw [h,
    show (process_video_frames predict237 ["a.jpg", "b.jpg", "c.jpg"]).total_garbage_count
      = 5 from rfl,
    show (process_video_frames predict237 ["a.jpg", "b.jpg", "c.jpg"]).frames_processed
      = 3 from rfl]
  norm_num

/-! Claim C2. -/

/-- Network behaviour for the C2 counterexample: the first two attempts fail
with a transport error, every later attempt succeeds - exactly the scenario of
the claim (fails twice with WorkerUnreachable, would succeed on the third
attempt). -/
def retryNet : Nat → NetResult := fun n =>
  if n < 2 then .urlError "Connection refused"
  else .success (.jsonOf (.dict [("garbage_count", .int 2)]))

/-- Dispatch environment for the C2 counterexample. -/
def retryEnv : DispatchEnv := ⟨fun _ => true, fun _ => none, retryNet⟩

/-- C2 counterexample: dispatching one frame under retryNet issues exactly one
network attempt (not three) and records a failure outcome, even though the
network would have succeeded on the third attempt: splice_and_send_video and
send_json contain no retry or backoff logic at all, so the claimed
three-attempt success cannot occur. -/
theorem claim_C2_counterexample :
    (send_frames retryEnv ["frames_tmp/frame_00001.jpg"] 0).2 = 1 ∧
    (send_frames retryEnv ["frames_tmp/frame_00001.jpg"] 0).1
      = [PyVal.dict [("frame", .str "frame_00001.jpg"),
          ("response", .dict [("error", .str "Network error: Connection refused")])]] :=
  ⟨rfl, rfl⟩

/-- C2 amended: every frame is dispatched exactly once - the run issues one
network attempt per frame whose file could be read (none when the local read
fails before the request), with no retries and no backoff for any error kind
(WorkerUnreachable included), and exactly one report entry per frame. -/
theorem claim_C2_amended (env : DispatchEnv) (frames : List String) (ctr : Nat) :
    (send_frames env frames ctr).2
      = ctr + (frames.filter (fun f => env.fileExists f && (env.readErr f).isNone)).length ∧
    (send_frames env frames ctr).1.length = frames.length :=
  ⟨send_frames_attempts env frames ctr, send_frames_length env frames ctr⟩

/-! Claim C7. -/

/-- C7: the aggregated total equals the sum of the detection counts of the
successful outcomes; a failed frame still gets its own entry (one entry per
frame, carrying the error message) and its recorded count is 0, so it
contributes nothing to the sum. -/
theorem claim_C7_totals (predict : String → PredictResult) (frames : List String) :
    (process_video_frames predict frames).total_garbage_count
      = (((process_video_frames predict frames).frame_results.filter
            (fun fr => fr.error.isNone)).map (fun fr => fr.garbage_count)).sum ∧
    (∀ fr ∈ (process_video_frames predict frames).frame_results,
        fr.error.isSome = true → fr.garbage_count = 0) ∧
    (process_video_frames predict frames).frame_results.length = frames.length := by
  obtain ⟨h1, h2, h3⟩ := process_video_frames_go_spec predict frames
  exact ⟨h2, h3, h1⟩

/-- Prediction behaviour with a failure, for the C7 witness. -/
def predictFail : String → PredictResult := fun p =>
  if p = "b.jpg" then .exc "model crashed" else .ok 2

/-- C7 witness: counts [2, 0, 3] over three successes yield total 5, via the
claim theorem at that input; and at an input with one failing frame, the
failing entry recorded carries count 0, via the claim theorem again. -/
theorem claim_C7_witness :
    (process_video_frames predict237 ["a.jpg", "b.jpg", "c.jpg"]).total_garbage_count = 5 ∧
    (process_video_frames predict237 ["a.jpg", "b.jpg", "c.jpg"]).total_garbage_count
      = (((process_video_frames predict237 ["a.jpg", "b.jpg", "c.jpg"]).frame_results.filter
            (fun fr => fr.error.isNone)).map (fun fr => fr.garbage_count)).sum ∧
    (⟨"b.jpg", 0, some "model crashed"⟩ : FrameResult).garbage_count = 0 := by
  refine ⟨rfl, (claim_C7_totals predict237 ["a.jpg", "b.jpg", "c.jpg"]).1, ?_⟩
  exact (claim_C7_totals predictFail ["a.jpg", "b.jpg"]).2.1
    ⟨"b.jpg", 0, some "model crashed"⟩ (List.Mem.tail _ (List.Mem.head _)) rfl

/-! Concrete pipeline environment shared by several witnesses. -/

/-- Extraction environment for the witnesses: three frames found by glob in
non-sorted filesystem order. -/
def wExtract : ExtractEnv :=
  ⟨true, 0, ["d/frame_00002.jpg", "d/frame_00001.jpg", "d/frame_00003.jpg"]⟩

/-- Dispatch environment for the witnesses: the second network attempt fails
with a transport error, the others succeed. -/
def wDispatch : DispatchEnv :=
  ⟨fun _ => true, fun _ => none,
   fun n => if n = 1 then .urlError "Connection refused"
            else .success (.jsonOf (.dict [("garbage_count", .int 2)]))⟩

/-- Pipeline environment for the witnesses. -/
def wPipe : PipelineEnv := ⟨wExtract, wDispatch⟩

/-- The sorted frame sequence the witnesses produce. -/
def wFrames : List String :=
  ["d/frame_00001.jpg", "d/frame_00002.jpg", "d/frame_00003.jpg"]

/-! Claim C3. -/

/-- C3: one frame's failure never aborts the run - for every dispatch
environment (including ones where any or all network calls fail, return error
payloads, or return unparseable bodies), once extraction has succeeded the run
completes with ok = true and one response entry per dispatched frame, covering
every frame in order. -/
theorem claim_C3_no_abort (env : PipelineEnv) (video_path step : String)
    (mf : Option Int) (q : Rat) (frames : List String)
    (hstep : pyFloatOfString step = some q) (hq : 0 < q)
    (hext : extract_frames env.extract video_path q = .ok frames) :
    (splice_and_send_video env video_path step mf).get "ok" = some (.bool true) ∧
    ∃ rs : List PyVal,
      (splice_and_send_video env video_path step mf).get "responses" = some (.list rs) ∧
      rs.map (fun e => e.get "frame")
        = (truncFrames mf frames).map (fun f => some (PyVal.str (basename f))) := by
  rw [splice_ok_form env video_path step mf q frames hstep hq hext]
  exact ⟨rfl, _, rfl, send_frames_frame_names env.dispatch _ 0⟩

/-- C3 witness: the claim applied to a concrete three-frame run whose second
network call fails - the run still returns ok = true and covers all frames. -/
theorem claim_C3_witness :
    (splice_and_send_video wPipe "v.mp4" "1" none).get "ok" = some (.bool true) ∧
    ∃ rs : List PyVal,
      (splice_and_send_video wPipe "v.mp4" "1" none).get "responses" = some (.list rs) ∧
      rs.map (fun e => e.get "frame")
        = (truncFrames none wFrames).map (fun f => some (PyVal.str (basename f))) :=
  claim_C3_no_abort wPipe "v.mp4" "1" none 1 wFrames rfl (by norm_num) rfl

/-! Claim C4. -/

/-- C4: outcomes are ordered by the original frame sequence index: the
response list mirrors, entry by entry and in order, the dispatched frame
sequence, which is itself sorted ascending (the zero-padded ffmpeg naming
makes name order the 1-based frame index and timestamp order); the dispatch
loop is sequential, so completion order cannot differ from this order. -/
theorem claim_C4_ordering (env : PipelineEnv) (video_path step : String)
    (mf : Option Int) (q : Rat) (frames : List String)
    (hstep : pyFloatOfString step = some q) (hq : 0 < q)
    (hext : extract_frames env.extract video_path q = .ok frames) :
    List.Sorted pyStrLe frames ∧
    List.Sorted pyStrLe (truncFrames mf frames) ∧
    ∃ rs : List PyVal,
      (splice_and_send_video env video_path step mf).get "responses" = some (.list rs) ∧
      rs.map (fun e => e.get "frame")
        = (truncFrames mf frames).map (fun f => some (PyVal.str (basename f))) := by
  obtain ⟨hfr, -⟩ := extract_frames_ok_elim env.extract video_path q frames hext
  have hsorted : List.Sorted pyStrLe frames := by
    rw [hfr]
    exact List.sorted_insertionSort pyStrLe env.extract.globFrames
  refine ⟨hsorted, List.Pairwise.sublist (truncFrames_sublist mf frames) hsorted, ?_⟩
  rw [splice_ok_form env video_path step mf q frames hstep hq hext]
  exact ⟨_, rfl, send_frames_frame_names env.dispatch _ 0⟩

/-- C4 witness: the claim applied to the concrete environment whose glob order
is scrambled and whose second network call fails - the frame sequence is
sorted and the responses follow it in order. -/
theorem claim_C4_witness :
    List.Sorted pyStrLe wFrames ∧
    List.Sorted pyStrLe (truncFrames none wFrames) ∧
    ∃ rs : List PyVal,
      (splice_and_send_video wPipe "v.mp4" "1" none).get "responses" = some (.list rs) ∧
      rs.map (fun e => e.get "frame")
        = (truncFrames none wFrames).map (fun f => some (PyVal.str (basename f))) :=
  claim_C4_ordering wPipe "v.mp4" "1" none 1 wFrames rfl (by norm_num) rfl

/-! Claim C5. -/

/-- C5: exactly one outcome per sampled frame: once extraction succeeds, the
response list has one entry per dispatched frame - whatever the per-frame
outcomes - and the reported frames_sent equals its length; likewise in
process_video_frames the result list always has one entry per frame and
frames_processed equals the frame count. -/
theorem claim_C5_outcome_count :
    (∀ (env : PipelineEnv) (video_path step : String) (mf : Option Int) (q : Rat)
       (frames : List String),
       pyFloatOfString step = some q → 0 < q →
       extract_frames env.extract video_path q = .ok frames →
       ∃ rs : List PyVal,
         (splice_and_send_video env video_path step mf).get "responses" = some (.list rs) ∧
         rs.length = (truncFrames mf frames).length ∧
         (splice_and_send_video env video_path step mf).get "frames_sent"
           = some (.int (rs.length : Int))) ∧
    (∀ (predict : String → PredictResult) (fs : List String),
       (process_video_frames predict fs).frame_results.length = fs.length ∧
       (process_video_frames predict fs).frames_processed = fs.length) := by
  constructor
  · intro env video_path step mf q frames hstep hq hext
    rw [splice_ok_form env video_path step mf q frames hstep hq hext]
    refine ⟨_, rfl, send_frames_length env.dispatch _ 0, ?_⟩
    rw [send_frames_length env.dispatch _ 0]
    rfl
  · intro predict fs
    exact ⟨(process_video_frames_go_spec predict fs).1, rfl⟩

/-- C5 witness: the claim applied at the concrete three-frame environment with
one failing network call, and at a concrete process_video_frames input. -/
theorem claim_C5_witness :
    (∃ rs : List PyVal,
      (splice_and_send_video wPipe "v.mp4" "1" none).get "responses" = some (.list rs) ∧
      rs.length = (truncFrames none wFrames).length ∧
      (splice_and_send_video wPipe "v.mp4" "1" none).get "frames_sent"
        = some (.int (rs.length : Int))) ∧
    (process_video_frames predictFail ["a.jpg", "b.jpg"]).frame_results.length = 2 :=
  ⟨claim_C5_outcome_count.1 wPipe "v.mp4" "1" none 1 wFrames rfl (by norm_num) rfl,
   (claim_C5_outcome_count.2 predictFail ["a.jpg", "b.jpg"]).1⟩

/-! Claim C6. -/

/-- C6: for a positive cap k smaller than the number of extracted frames, the
dispatched sequence is exactly the first k frames of the (ascending, hence
earliest-timestamp-first) extraction output, with exactly k entries; a cap of
at least the frame count leaves the sequence unchanged; and truncation still
yields an ok = true result - it is never reported as an error. -/
theorem claim_C6_truncation (frames : List String) (k : Int) (hk : 0 < k) :
    ((k < (frames.length : Int)) →
        truncFrames (some k) frames = frames.take k.toNat ∧
        ((truncFrames (some k) frames).length : Int) = k) ∧
    (((frames.length : Int) ≤ k) → truncFrames (some k) frames = frames) ∧
    (∀ (env : PipelineEnv) (video_path step : String) (q : Rat),
       pyFloatOfString step = some q → 0 < q →
       extract_frames env.extract video_path q = .ok frames →
       (splice_and_send_video env video_path step (some k)).get "ok"
         = some (.bool true)) := by
  refine ⟨?_, ?_, ?_⟩
  · intro hlt
    have hcond : k ≠ 0 ∧ (frames.length : Int) > k := ⟨by omega, hlt⟩
    have heq : truncFrames (some k) frames = frames.take k.toNat := by
      have hdef : truncFrames (some k) frames
          = if k ≠ 0 ∧ (frames.length : Int) > k then pySlice frames k else frames := rfl
      rw [hdef, if_pos hcond]
      unfold pySlice
      rw [if_pos (le_of_lt hk)]
    refine ⟨heq, ?_⟩
    rw [heq, List.length_take, min_eq_left (by omega : k.toNat ≤ frames.length)]
    omega
  · intro hge
    have hcond : ¬ (k ≠ 0 ∧ (frames.length : Int) > k) := by
      rintro ⟨h1, h2⟩
      omega
    have hdef : truncFrames (some k) frames
        = if k ≠ 0 ∧ (frames.length : Int) > k then pySlice frames k else frames := rfl
    rw [hdef, if_neg hcond]
  · intro env video_path step q hstep hq hext
    rw [splice_ok_form env video_path step (some k) q frames hstep hq hext]
    rfl

/-- C6 witness: the claim applied with cap 2 over the three extracted frames:
the dispatched sequence is the first two frames and the run is still ok. -/
theorem claim_C6_witness :
    truncFrames (some 2) wFrames = wFrames.take (2 : Int).toNat ∧
    (splice_and_send_video wPipe "v.mp4" "1" (some 2)).get "ok" = some (.bool true) :=
  ⟨((claim_C6_truncation wFrames 2 (by norm_num)).1 (by decide)).1,
   (claim_C6_truncation wFrames 2 (by norm_num)).2.2 wPipe "v.mp4" "1" 1 rfl
     (by norm_num) rfl⟩

/-! Claim C8. -/

/-- C8: frame sampling never yields a silently empty result: a non-zero
ffmpeg exit raises CalledProcessError (the ExtractionFailed of the spec,
subprocess.run with check=True), a zero-frame glob raises RuntimeError (the
NoFramesProduced of the spec), and every successful return of extract_frames
is a non-empty frame list. -/
theorem claim_C8_extraction (env : ExtractEnv) (video_path : String) (q : Rat) :
    (env.videoExists = true → 0 < q → env.ffmpegExit ≠ 0 →
      extract_frames env video_path q = .error (.calledProcessError env.ffmpegExit)) ∧
    (env.videoExists = true → 0 < q → env.ffmpegExit = 0 → env.globFrames = [] →
      extract_frames env video_path q
        = .error (.runtimeError
            "No frames extracted. Possibly video too short or invalid step.")) ∧
    (∀ frames : List String,
        extract_frames env video_path q = .ok frames → frames ≠ []) := by
  refine ⟨?_, ?_, ?_⟩
  · intro hv hq hff
    unfold extract_frames
    rw [hv, if_neg (by simp : ¬ (true = false)), if_neg (not_le.mpr hq), if_pos hff]
  · intro hv hq hff hgl
    unfold extract_frames
    rw [hv, if_neg (by simp : ¬ (true = false)), if_neg (not_le.mpr hq),
        if_neg (by simp [hff] : ¬ env.ffmpegExit ≠ 0)]
    simp only [hgl]
    rfl
  · exact fun frames h => (extract_frames_ok_elim env video_path q frames h).2

/-- C8 witness: the claim applied at concrete environments: non-zero ffmpeg
exit, zero frames produced, and a successful non-empty extraction. -/
theorem claim_C8_witness :
    extract_frames ⟨true, 1, []⟩ "v.mp4" 1 = .error (.calledProcessError 1) ∧
    extract_frames ⟨true, 0, []⟩ "v.mp4" 1
      = .error (.runtimeError
          "No frames extracted. Possibly video too short or invalid step.") ∧
    wFrames ≠ [] :=
  ⟨(claim_C8_extraction ⟨true, 1, []⟩ "v.mp4" 1).1 rfl (by norm_num) (by decide),
   (claim_C8_extraction ⟨true, 0, []⟩ "v.mp4" 1).2.1 rfl (by norm_num) rfl rfl,
   (claim_C8_extraction wExtract "v.mp4" 1).2.2 wFrames rfl⟩

/-! Claim C9. -/

/-- Dispatch environment for the C9 counterexample: every network call
succeeds with the well-formed JSON body of an empty object - a payload with no
detection count in it. -/
def malformedEnv : DispatchEnv :=
  ⟨fun _ => true, fun _ => none, fun _ => .success (.jsonOf (.dict []))⟩

/-- C9 counterexample: a worker response that is valid JSON but not a valid
detection count (the empty object) yields a per-frame outcome with NO error
descriptor - the parsed payload is recorded as-is - and the persistence-layer
aggregation of save_results_to_firestore then silently counts it as 0,
contradicting the claim that every response without a parseable count becomes
a MalformedWorkerResponse-kind error and that counts are never coerced to
zero. -/
theorem claim_C9_counterexample :
    ((send_frames malformedEnv ["frame_00001.jpg"] 0).1.headD (.dict [])).get "response"
      = some (.dict []) ∧
    ((send_frames malformedEnv ["frame_00001.jpg"] 0).1.headD (.dict [])).get "error"
      = none ∧
    save_results_summary
      (.dict [("ok", .bool true),
              ("responses", .list (send_frames malformedEnv ["frame_00001.jpg"] 0).1)])
      = some ⟨0, 1, [0]⟩ :=
  ⟨rfl, rfl, rfl⟩

/-- C9 amended: only a response that fails JSON parsing gets an error
descriptor, and that descriptor preserves the raw response verbatim; a
parseable JSON response is recorded as its parsed payload without any count
validation, and a payload lacking an integer count field is silently counted
as 0 by the persistence-layer aggregation. -/
theorem claim_C9_amended :
    (∀ s : String,
      parse_backend_response (.nonJson s)
        = .dict [("error", .str "Non-JSON response from backend"), ("raw", .str s)] ∧
      (parse_backend_response (.nonJson s)).get "raw" = some (.str s)) ∧
    (∀ v : PyVal, parse_backend_response (.jsonOf v) = v) ∧
    (∀ frame_name : String,
      save_results_summary
        (.dict [("ok", .bool true),
                ("responses", .list [.dict [("frame", .str frame_name),
                                            ("response", .dict [])]])])
        = some ⟨0, 1, [0]⟩) :=
  ⟨fun _ => ⟨rfl, rfl⟩, fun _ => rfl, fun _ => rfl⟩

/-! Claim C10. -/

/-- C10: splice_and_send_video is total over its inputs: for every
environment, video path, step string and max_frames value it returns a dict
carrying an ok key - ok = false together with an error string (unparseable or
non-positive step, extraction failure), or ok = true together with
frames_sent and responses - and no exception escapes: every raising callee is
caught in the model exactly where the source wraps it in try/except. -/
theorem claim_C10_total_interface (env : PipelineEnv) (video_path step : String)
    (mf : Option Int) :
    ∃ b : Bool,
      (splice_and_send_video env video_path step mf).get "ok" = some (.bool b) ∧
      (b = false →
        ∃ s : String,
          (splice_and_send_video env video_path step mf).get "error" = some (.str s)) ∧
      (b = true →
        ∃ (n : Int) (rs : List PyVal),
          (splice_and_send_video env video_path step mf).get "frames_sent"
            = some (.int n) ∧
          (splice_and_send_video env video_path step mf).get "responses"
            = some (.list rs)) := by
  rcases hstep : pyFloatOfString step with _ | q
  · refine ⟨false, ?_,
      fun _ => ⟨"Invalid step value " ++ step ++ ". Must be a positive number.", ?_⟩,
      fun hb => by simp at hb⟩ <;>
      simp only [splice_and_send_video, hstep] <;> rfl
  · by_cases hq : q ≤ 0
    · refine ⟨false, ?_,
        fun _ => ⟨"Invalid step value " ++ step ++ ". Must be a positive number.", ?_⟩,
        fun hb => by simp at hb⟩ <;>
        simp only [splice_and_send_video, hstep] <;> rw [if_pos hq] <;> rfl
    · rcases hext : extract_frames env.extract video_path q with e | frames
      · refine ⟨false, ?_,
          fun _ => ⟨"Frame extraction failed: " ++ pyErrMsg e, ?_⟩,
          fun hb => by simp at hb⟩ <;>
          simp only [splice_and_send_video, hstep] <;> rw [if_neg hq] <;>
            simp only [hext] <;> rfl
      · refine ⟨true, ?_, fun hb => by simp at hb,
          fun _ => ⟨((truncFrames mf frames).length : Int),
            (send_frames env.dispatch (truncFrames mf frames) 0).1, ?_, ?_⟩⟩ <;>
          rw [splice_ok_form env video_path step mf q frames hstep (not_le.mp hq) hext] <;>
            rfl

end VideoPipeline
